import Mathlib

/-!
Verification development for the g-ai-trade repository.

Shallow embedding of the fee-protection gate (app/ai/fee_protection.py),
the position sizer and adaptive stop loss (app/ai/risk_management.py),
the performance tracker (app/ai/risk_management.py), the decision
pipeline (app/ai/advanced_modules.py), the cached market-data proxy
(app/binance_client.py) and the backtesting exchange simulator
(app/backtesting/backtesting_engine.py).

Python floats are idealised as rationals; timestamps are rationals in
minutes (fee gate) or in days (performance tracker) or in seconds
(market-data proxy), matching the unit each source module computes with.
-/

/-! ## Fee protection (app/ai/fee_protection.py, class FeeProtectionManager) -/

/-- State of FeeProtectionManager: fee configuration, the recorded trade
timestamps (minutes since an arbitrary epoch) and the open-position entry
time.  The ring-buffer cap of 1000 on trade_history is irrelevant to the
claims and not modelled. -/
structure FeeProtectionManager where
  maker_fee : ℚ
  taker_fee : ℚ
  min_profit_multiple : ℚ
  max_trades_per_hour : ℕ
  max_trades_per_day : ℕ
  min_hold_time_minutes : ℚ
  trade_history : List ℚ
  position_entry_time : Option ℚ

/-- Result dict of calculate_total_fees. -/
structure FeesInfo where
  entry_fee_usd : ℚ
  exit_fee_usd : ℚ
  total_fee_usd : ℚ
  fee_pct : ℚ

/-- FeeProtectionManager.calculate_total_fees: taker fee on the entry leg,
taker fee on the exit value position_size_usd * (exit_price / entry_price). -/
def calculate_total_fees (m : FeeProtectionManager)
    (entry_price exit_price position_size_usd : ℚ) : FeesInfo :=
  let entry_fee := position_size_usd * m.taker_fee
  let exit_value := position_size_usd * (exit_price / entry_price)
  let exit_fee := exit_value * m.taker_fee
  let total_fee := entry_fee + exit_fee
  { entry_fee_usd := entry_fee
    exit_fee_usd := exit_fee
    total_fee_usd := total_fee
    fee_pct := total_fee / position_size_usd * 100 }

/-- Result dict of calculate_net_profit. -/
structure NetProfitInfo where
  gross_profit_usd : ℚ
  gross_profit_pct : ℚ
  total_fee_usd : ℚ
  fee_pct : ℚ
  net_profit_usd : ℚ
  net_profit_pct : ℚ

/-- FeeProtectionManager.calculate_net_profit: gross profit scaled from the
price move, minus the round-trip fees of calculate_total_fees. -/
def calculate_net_profit (m : FeeProtectionManager)
    (entry_price exit_price position_size_usd : ℚ) : NetProfitInfo :=
  let gross_profit := position_size_usd * ((exit_price - entry_price) / entry_price)
  let fees := calculate_total_fees m entry_price exit_price position_size_usd
  let net_profit := gross_profit - fees.total_fee_usd
  { gross_profit_usd := gross_profit
    gross_profit_pct := (exit_price - entry_price) / entry_price * 100
    total_fee_usd := fees.total_fee_usd
    fee_pct := fees.fee_pct
    net_profit_usd := net_profit
    net_profit_pct := net_profit / position_size_usd * 100 }

/-- FeeProtectionManager.is_profit_above_fee_threshold: true iff the net
profit is at least min_profit_multiple times the total fees. -/
def is_profit_above_fee_threshold (m : FeeProtectionManager)
    (entry_price exit_price position_size_usd : ℚ) : Bool :=
  let profit := calculate_net_profit m entry_price exit_price position_size_usd
  let min_required_profit := profit.total_fee_usd * m.min_profit_multiple
  decide (min_required_profit ≤ profit.net_profit_usd)

/-- FeeProtectionManager.check_trade_frequency_limits at wall-clock time
now (minutes): denies when the count of recorded trades in the last hour
reaches max_trades_per_hour, or the count in the last 24 hours reaches
max_trades_per_day.  The source counts entries with timestamp >= now - 1h
(resp. now - 1 day), inclusive. -/
def check_trade_frequency_limits (m : FeeProtectionManager) (now : ℚ) : Bool :=
  let trades_last_hour := (m.trade_history.filter (fun ts => now - 60 ≤ ts)).length
  if m.max_trades_per_hour ≤ trades_last_hour then false
  else
    let trades_last_day := (m.trade_history.filter (fun ts => now - 1440 ≤ ts)).length
    if m.max_trades_per_day ≤ trades_last_day then false
    else true

/-- FeeProtectionManager.check_minimum_hold_time at time now (minutes):
allowed when no position is open, or when the hold duration has reached
min_hold_time_minutes. -/
def check_minimum_hold_time (m : FeeProtectionManager) (now : ℚ) : Bool :=
  match m.position_entry_time with
  | none => true
  | some entry_time =>
      if now - entry_time < m.min_hold_time_minutes then false else true

/-- FeeProtectionManager.can_open_position: just the frequency-limit check. -/
def can_open_position (m : FeeProtectionManager) (now : ℚ) : Bool :=
  let freq_allowed := check_trade_frequency_limits m now
  if ¬freq_allowed then false else true

/-- FeeProtectionManager.can_close_position: the hold-time gate applies
unless force_close; force_close short-circuits to allowed; otherwise the
profit-vs-fees gate decides. -/
def can_close_position (m : FeeProtectionManager) (now : ℚ)
    (entry_price current_price position_size_usd : ℚ) (force_close : Bool) : Bool :=
  let hold_allowed := check_minimum_hold_time m now
  if ¬hold_allowed ∧ ¬force_close then false
  else if force_close then true
  else
    let profit_allowed :=
      is_profit_above_fee_threshold m entry_price current_price position_size_usd
    if ¬profit_allowed then false else true

/-! ## Position sizer (app/ai/risk_management.py, class PositionSizer) -/

/-- PositionSizer configuration. -/
structure PositionSizer where
  max_risk_per_trade : ℚ

/-- Result dict of calculate_position_size (the nested adjustments
sub-dict repeats values already present and is not carried). -/
structure PositionSizeInfo where
  position_size_usd : ℚ
  position_pct : ℚ
  kelly_fraction : ℚ
  volatility_multiplier : ℚ
  confidence_multiplier : ℚ

/-- PositionSizer._minimum_position: the fallback 0.5 percent sizing. -/
def minimum_position (account_balance : ℚ) : PositionSizeInfo :=
  { position_size_usd := account_balance * (5 / 1000)
    position_pct := 1 / 2
    kelly_fraction := 5 / 1000
    volatility_multiplier := 1
    confidence_multiplier := 1 }

/-- PositionSizer.calculate_position_size.  The source halves the raw
Kelly fraction first and then clamps to the interval from 0 to 0.25.
A non-positive balance takes the _minimum_position fallback; so does a
zero win/loss ratio b, where the Python float division (p*b - q)/b
raises ZeroDivisionError and the surrounding except-handler returns
_minimum_position. -/
def calculate_position_size (sizer : PositionSizer)
    (account_balance win_rate avg_win_pct avg_loss_pct current_volatility confidence : ℚ) :
    PositionSizeInfo :=
  if account_balance ≤ 0 then minimum_position account_balance
  else
    let avg_loss := if avg_loss_pct = 0 then 1 / 50 else avg_loss_pct
    let b := if 0 < avg_loss then avg_win_pct / avg_loss else 2
    if b = 0 then minimum_position account_balance
    else
      let kelly_fraction := (win_rate * b - (1 - win_rate)) / b
      let half_kelly := kelly_fraction / 2
      let safe_kelly := max 0 (min (1 / 4) half_kelly)
      let volatility_multiplier := (1 / 50) / max current_volatility (1 / 100)
      let volatility_multiplier := min 1 (max (3 / 10) volatility_multiplier)
      let confidence_multiplier := max (1 / 2) confidence
      let position_fraction := safe_kelly * volatility_multiplier * confidence_multiplier
      let position_fraction := min position_fraction sizer.max_risk_per_trade
      let position_size_usd := account_balance * position_fraction
      let min_position := account_balance * (5 / 1000)
      let position_size_usd := max min_position position_size_usd
      { position_size_usd := position_size_usd
        position_pct := position_fraction * 100
        kelly_fraction := safe_kelly
        volatility_multiplier := volatility_multiplier
        confidence_multiplier := confidence_multiplier }

/-- Position size as the specification sentence words it (section 4.8 of
the spec): clamp the raw Kelly fraction to the interval from 0 to 0.25
FIRST and only then halve it; volatility multiplier written directly as
the clamp of 0.02 / current_volatility.  Used to compare the spec
sentence against calculate_position_size. -/
def spec_position_size_usd (sizer : PositionSizer)
    (account_balance win_rate avg_win_pct avg_loss_pct current_volatility confidence : ℚ) : ℚ :=
  let b := avg_win_pct / avg_loss_pct
  let kelly_fraction := (win_rate * b - (1 - win_rate)) / b
  let clamped_kelly := max 0 (min (1 / 4) kelly_fraction)
  let half_kelly := clamped_kelly / 2
  let vol_mult := min 1 (max (3 / 10) ((1 / 50) / current_volatility))
  let conf_mult := max (1 / 2) confidence
  let fraction := min sizer.max_risk_per_trade (half_kelly * vol_mult * conf_mult)
  max (account_balance * (5 / 1000)) (account_balance * fraction)

/-- The same formula with the order the source actually uses, halve then
clamp: the amended reading of the claim for C4. -/
def amended_position_size_usd (sizer : PositionSizer)
    (account_balance win_rate avg_win_pct avg_loss_pct current_volatility confidence : ℚ) : ℚ :=
  let b := avg_win_pct / avg_loss_pct
  let kelly_fraction := (win_rate * b - (1 - win_rate)) / b
  let half_kelly := kelly_fraction / 2
  let safe_kelly := max 0 (min (1 / 4) half_kelly)
  let vol_mult := min 1 (max (3 / 10) ((1 / 50) / max current_volatility (1 / 100)))
  let conf_mult := max (1 / 2) confidence
  let fraction := min sizer.max_risk_per_trade (safe_kelly * vol_mult * conf_mult)
  max (account_balance * (5 / 1000)) (account_balance * fraction)

/-! ## Adaptive stop loss (app/ai/risk_management.py, class AdaptiveStopLoss) -/

/-- Position side, as the uppercased side string of the source. -/
inductive Side where
  | BUY
  | SELL
deriving DecidableEq, Repr

/-- One OHLCV row, restricted to the columns the stop-loss logic reads. -/
structure Bar where
  high : ℚ
  low : ℚ
  close : ℚ
deriving DecidableEq, Repr

/-- True ranges of the bars after the first, threaded with the previous
close (pandas shift): max of high-low, abs (high - prev_close),
abs (low - prev_close). -/
def trueRangesAux (prev : Bar) : List Bar → List ℚ
  | [] => []
  | b :: rest =>
      max (b.high - b.low) (max |b.high - prev.close| |b.low - prev.close|)
        :: trueRangesAux b rest

/-- True-range series of calculate_atr.  On the first row the shifted
close is NaN, so the row-wise max (which skips NaN) is just high - low. -/
def trueRanges : List Bar → List ℚ
  | [] => []
  | b :: rest => (b.high - b.low) :: trueRangesAux b rest

/-- Last n elements of a list (pandas tail). -/
def lastN (n : ℕ) (l : List α) : List α :=
  l.drop (l.length - n)

/-- Arithmetic mean of a list of rationals (0 for the empty list, which
the callers never hit). -/
def listMean (l : List ℚ) : ℚ :=
  l.sum / l.length

/-- Maximum of the high columns (0 on empty, unreachable from update_stop
which guards against an empty frame). -/
def maxHighs (bars : List Bar) : ℚ :=
  (bars.map Bar.high).foldr max 0

/-- Minimum of the low columns relative to a first element. -/
def minLows (bars : List Bar) : ℚ :=
  match bars.map Bar.low with
  | [] => 0
  | x :: xs => xs.foldr min x

/-- AdaptiveStopLoss.calculate_atr with the default period 14: the
rolling(14) mean of the true ranges is NaN until 14 bars exist, in which
case the fallback (max high of the last 14 bars minus min low of the
last 14 bars) / 14 is used; with at least 14 bars it is the mean of the
last 14 true ranges. -/
def calculate_atr (bars : List Bar) : ℚ :=
  if 14 ≤ bars.length then listMean (lastN 14 (trueRanges bars))
  else (maxHighs (lastN 14 bars) - minLows (lastN 14 bars)) / 14

/-- Mutable state of AdaptiveStopLoss. -/
structure AdaptiveStopLoss where
  entry_price : ℚ
  side : Side
  atr_multiplier : ℚ
  extreme_price : ℚ
  current_stop : Option ℚ
deriving DecidableEq, Repr

/-- AdaptiveStopLoss constructor: extreme price starts at entry, no stop
stored yet. -/
def mkAdaptiveStopLoss (entry_price : ℚ) (side : Side) (atr_multiplier : ℚ := 5 / 2) :
    AdaptiveStopLoss :=
  { entry_price := entry_price
    side := side
    atr_multiplier := atr_multiplier
    extreme_price := entry_price
    current_stop := none }

/-- AdaptiveStopLoss.find_swing_level with the default lookback 10: the
rolling(10) min of lows (for BUY) or max of highs (for SELL) is NaN with
fewer than 10 bars, in which case entry_price is returned. -/
def find_swing_level (s : AdaptiveStopLoss) (bars : List Bar) : ℚ :=
  if 10 ≤ bars.length then
    match s.side with
    | Side.BUY => minLows (lastN 10 bars)
    | Side.SELL => maxHighs (lastN 10 bars)
  else s.entry_price

/-- AdaptiveStopLoss.update_stop: the extreme price is pulled toward the
current price first; on an empty frame the ATR computation raises and
the exception handler returns a fallback result WITHOUT storing a stop,
so current_stop is left unchanged; otherwise the stored stop becomes the
max (BUY) or min (SELL) of the ATR stop, the swing stop and the fixed
3-percent stop from entry. -/
def update_stop (s : AdaptiveStopLoss) (bars : List Bar) (current_price : ℚ) :
    AdaptiveStopLoss :=
  let extreme :=
    match s.side with
    | Side.BUY => max s.extreme_price current_price
    | Side.SELL => min s.extreme_price current_price
  if bars.isEmpty then { s with extreme_price := extreme }
  else
    let atr := calculate_atr bars
    let swing_level := find_swing_level s bars
    let atr_stop :=
      match s.side with
      | Side.BUY => extreme - atr * s.atr_multiplier
      | Side.SELL => extreme + atr * s.atr_multiplier
    let swing_stop :=
      match s.side with
      | Side.BUY => swing_level * (998 / 1000)
      | Side.SELL => swing_level * (1002 / 1000)
    let min_stop :=
      match s.side with
      | Side.BUY => s.entry_price * (97 / 100)
      | Side.SELL => s.entry_price * (103 / 100)
    let stop :=
      match s.side with
      | Side.BUY => max (max atr_stop swing_stop) min_stop
      | Side.SELL => min (min atr_stop swing_stop) min_stop
    { s with extreme_price := extreme, current_stop := some stop }

/-- AdaptiveStopLoss.should_exit: a stored stop triggers when the price
crosses it (at or below for BUY, at or above for SELL). -/
def should_exit (s : AdaptiveStopLoss) (current_price : ℚ) : Bool :=
  match s.current_stop with
  | none => false
  | some stop =>
      match s.side with
      | Side.BUY => decide (current_price ≤ stop)
      | Side.SELL => decide (stop ≤ current_price)

/-! ## Performance tracker (app/ai/risk_management.py, class PerformanceTracker) -/

/-- One completed trade as logged to PerformanceTracker; timestamps are
rationals in days. -/
structure TradeRec where
  timestamp : ℚ
  pnl_usd : ℚ
  pnl_pct : ℚ
  hold_time_minutes : ℚ
deriving DecidableEq, Repr

/-- The exactly-representable numeric fields of the statistics dict of
get_statistics.  The float-only fields (sharpe and sortino use a square
root; profit_factor can be float infinity) are functions of the same
filtered trade list and are omitted, as is the 2-to-4-decimal display
rounding the source applies to the kept fields. -/
structure Stats where
  total_trades : ℕ
  win_count : ℕ
  loss_count : ℕ
  breakeven_count : ℕ
  win_rate : ℚ
  avg_win_pct : ℚ
  avg_loss_pct : ℚ
  net_pnl_usd : ℚ
  expectancy_pct : ℚ
  avg_hold_time_minutes : ℚ
deriving DecidableEq, Repr

/-- PerformanceTracker._empty_stats, restricted to the carried fields;
win_rate defaults to 1/2. -/
def empty_stats : Stats :=
  { total_trades := 0
    win_count := 0
    loss_count := 0
    breakeven_count := 0
    win_rate := 1 / 2
    avg_win_pct := 0
    avg_loss_pct := 0
    net_pnl_usd := 0
    expectancy_pct := 0
    avg_hold_time_minutes := 0 }

/-- PerformanceTracker.get_statistics: the cutoff is the CURRENT
WALL-CLOCK TIME (datetime.now() in the source, here the explicit
argument now, in days) minus lookback_days; only trades strictly after
the cutoff are counted.  An empty window returns _empty_stats. -/
def get_statistics (trades : List TradeRec) (lookback_days : ℚ) (now : ℚ) : Stats :=
  let cutoff_date := now - lookback_days
  let recent_trades := trades.filter (fun t => cutoff_date < t.timestamp)
  if recent_trades.isEmpty then empty_stats
  else
    let wins := recent_trades.filter (fun t => 0 < t.pnl_usd)
    let losses := recent_trades.filter (fun t => t.pnl_usd < 0)
    let breakeven := recent_trades.filter (fun t => t.pnl_usd = 0)
    let total_trades := recent_trades.length
    let win_rate := (wins.length : ℚ) / total_trades
    let avg_win_pct := if wins.isEmpty then 0 else listMean (wins.map TradeRec.pnl_pct)
    let avg_loss_pct := if losses.isEmpty then 0 else |listMean (losses.map TradeRec.pnl_pct)|
    { total_trades := total_trades
      win_count := wins.length
      loss_count := losses.length
      breakeven_count := breakeven.length
      win_rate := win_rate
      avg_win_pct := avg_win_pct
      avg_loss_pct := avg_loss_pct
      net_pnl_usd := (recent_trades.map TradeRec.pnl_usd).sum
      expectancy_pct := win_rate * avg_win_pct - (1 - win_rate) * avg_loss_pct
      avg_hold_time_minutes := listMean (recent_trades.map TradeRec.hold_time_minutes) }

/-! ## Exchange simulator (app/backtesting/backtesting_engine.py) -/

/-- An open position of the simulator (dataclass Position). -/
structure Position where
  symbol : String
  quantity : ℚ
  entry_price : ℚ
  entry_time : ℚ
  unrealized_pnl : ℚ
deriving DecidableEq, Repr

/-- An order event (dataclass OrderEvent); direction is the source's
string, compared against the literal BUY exactly as the source does. -/
structure OrderEvent where
  timestamp : ℚ
  symbol : String
  order_type : String
  direction : String
  quantity : ℚ
deriving DecidableEq, Repr

/-- A fill event (dataclass FillEvent). -/
structure FillEvent where
  timestamp : ℚ
  symbol : String
  direction : String
  quantity : ℚ
  fill_price : ℚ
  commission : ℚ
  slippage : ℚ
deriving DecidableEq, Repr

/-- Lookup in the positions dict, modelled as an association list keyed
by symbol. -/
def lookupPos : List (String × Position) → String → Option Position
  | [], _ => none
  | (k, v) :: rest, s => if k = s then some v else lookupPos rest s

/-- Removal from the positions dict (dict.pop). -/
def erasePos : List (String × Position) → String → List (String × Position)
  | [], _ => []
  | (k, v) :: rest, s => if k = s then rest else (k, v) :: erasePos rest s

/-- State of ExchangeSimulator. -/
structure ExchangeSimulator where
  initial_capital : ℚ
  cash : ℚ
  fee_rate : ℚ
  slippage_rate : ℚ
  positions : List (String × Position)
  fill_history : List FillEvent
deriving DecidableEq, Repr

/-- ExchangeSimulator constructor with the source defaults fee 0.001 and
slippage 0.0005. -/
def mkExchangeSimulator (initial_capital : ℚ)
    (fee_rate : ℚ := 1 / 1000) (slippage_rate : ℚ := 5 / 10000) : ExchangeSimulator :=
  { initial_capital := initial_capital
    cash := initial_capital
    fee_rate := fee_rate
    slippage_rate := slippage_rate
    positions := []
    fill_history := [] }

/-- ExchangeSimulator.execute_order.  Slippage moves the fill price
against the order; commission is fee_rate of the trade value.  A BUY is
refused when a position for the symbol exists or when the total cost
exceeds cash; otherwise cash drops by value plus commission and a
position is created.  A non-BUY (SELL) is refused without a position;
otherwise the position is popped and cash rises by value minus
commission.  Returns the optional fill and the successor state. -/
def execute_order (sim : ExchangeSimulator) (order : OrderEvent) (current_price : ℚ) :
    Option FillEvent × ExchangeSimulator :=
  let fill_price :=
    if order.direction = "BUY" then current_price * (1 + sim.slippage_rate)
    else current_price * (1 - sim.slippage_rate)
  let trade_value := fill_price * order.quantity
  let commission := trade_value * sim.fee_rate
  let fill : FillEvent :=
    { timestamp := order.timestamp
      symbol := order.symbol
      direction := order.direction
      quantity := order.quantity
      fill_price := fill_price
      commission := commission
      slippage := |fill_price - current_price| }
  if order.direction = "BUY" then
    if (lookupPos sim.positions order.symbol).isSome then (none, sim)
    else
      let total_cost := trade_value + commission
      if sim.cash < total_cost then (none, sim)
      else
        let pos : Position :=
          { symbol := order.symbol
            quantity := order.quantity
            entry_price := fill_price
            entry_time := order.timestamp
            unrealized_pnl := 0 }
        (some fill,
          { sim with
              cash := sim.cash - total_cost
              positions := (order.symbol, pos) :: sim.positions
              fill_history := sim.fill_history ++ [fill] })
  else
    match lookupPos sim.positions order.symbol with
    | none => (none, sim)
    | some _ =>
        (some fill,
          { sim with
              cash := sim.cash + (trade_value - commission)
              positions := erasePos sim.positions order.symbol
              fill_history := sim.fill_history ++ [fill] })

/-- A sequence of orders, each with the market price at which it is
executed, folded through execute_order (the shape of the backtest event
loop's calls into the simulator). -/
def run_orders (sim : ExchangeSimulator) : List (OrderEvent × ℚ) → ExchangeSimulator
  | [] => sim
  | (order, price) :: rest => run_orders (execute_order sim order price).2 rest

/-! ## Cached market-data proxy (app/binance_client.py, class MarketDataProxy) -/

/-- Outcome of a proxy fetch: a cache hit, a fresh network response, or
the rate-limit error the source raises (DDoSProtection, the error the
specification calls RateLimited).  Payloads are abstracted to naturals. -/
inductive FetchOutcome where
  | fromCache (v : ℕ)
  | fromNetwork (v : ℕ)
  | rateLimited
deriving DecidableEq, Repr

/-- Proxy state: the cache maps a key to (expires_at, value) and a
cooldown deadline; times are rationals in seconds. -/
structure MarketDataProxy where
  cache : List (String × (ℚ × ℕ))
  cooldown_until : ℚ
deriving DecidableEq, Repr

/-- Cache lookup in the association-list model of the dict. -/
def lookupCache : List (String × (ℚ × ℕ)) → String → Option (ℚ × ℕ)
  | [], _ => none
  | (k, v) :: rest, s => if k = s then some v else lookupCache rest s

/-- Cache removal (dict.pop). -/
def eraseCache : List (String × (ℚ × ℕ)) → String → List (String × (ℚ × ℕ))
  | [], _ => []
  | (k, v) :: rest, s => if k = s then rest else (k, v) :: eraseCache rest s

/-- MarketDataProxy._get_cached: an unexpired entry is returned; an
expired entry is popped from the cache and None is returned. -/
def get_cached (p : MarketDataProxy) (key : String) (now : ℚ) :
    Option ℕ × MarketDataProxy :=
  match lookupCache p.cache key with
  | none => (none, p)
  | some (expires, v) =>
      if now < expires then (some v, p)
      else (none, { p with cache := eraseCache p.cache key })

/-- The fresh cached value for a key, if any: some v exactly when the
cache holds an entry for the key whose expiry is still in the future. -/
def freshCached (p : MarketDataProxy) (key : String) (now : ℚ) : Option ℕ :=
  match lookupCache p.cache key with
  | none => none
  | some (expires, v) => if now < expires then some v else none

/-- MarketDataProxy._set_cache: store the value under the key with
expiry now + ttl (dict assignment replaces any previous binding). -/
def set_cache (p : MarketDataProxy) (key : String) (ttl : ℚ) (v : ℕ) (now : ℚ) :
    MarketDataProxy :=
  { p with cache := (key, (now + ttl, v)) :: eraseCache p.cache key }

/-- The common body of fetch_ticker, fetch_ohlcv and fetch_order_book,
which differ only in the cache key and the ttl.  net is the would-be
network response: some v a successful exchange call, none the exchange
raising a rate-limit error.  Control flow of the source: return a fresh
cached value; else _respect_cooldown raises during cooldown; else call
the exchange and cache the result.  The except-handler for rate-limit
errors re-reads the cache (necessarily empty for the key by now) and
_handle_rate_limit extends the cooldown to at least now + 30 before
re-raising. -/
def fetch (p : MarketDataProxy) (key : String) (ttl : ℚ) (now : ℚ) (net : Option ℕ) :
    FetchOutcome × MarketDataProxy :=
  let (c, p1) := get_cached p key now
  match c with
  | some v => (FetchOutcome.fromCache v, p1)
  | none =>
      if now < p1.cooldown_until then
        (FetchOutcome.rateLimited,
          { p1 with cooldown_until := max p1.cooldown_until (now + 30) })
      else
        match net with
        | some v => (FetchOutcome.fromNetwork v, set_cache p1 key ttl v now)
        | none =>
            (FetchOutcome.rateLimited,
              { p1 with cooldown_until := max p1.cooldown_until (now + 30) })

/-- MarketDataProxy.fetch_ticker: ttl 5 seconds. -/
def fetch_ticker (p : MarketDataProxy) (symbol : String) (now : ℚ) (net : Option ℕ) :
    FetchOutcome × MarketDataProxy :=
  fetch p ("ticker|" ++ symbol) 5 now net

/-- The per-timeframe OHLCV cache ttl table, default 120. -/
def ohlcvTtl (timeframe : String) : ℚ :=
  if timeframe = "1m" then 30
  else if timeframe = "3m" then 45
  else if timeframe = "5m" then 60
  else if timeframe = "15m" then 180
  else if timeframe = "30m" then 300
  else if timeframe = "1h" then 600
  else if timeframe = "2h" then 1200
  else if timeframe = "4h" then 1800
  else if timeframe = "1d" then 3600
  else 120

/-- MarketDataProxy.fetch_ohlcv: ttl from the timeframe table. -/
def fetch_ohlcv (p : MarketDataProxy) (symbol timeframe : String) (limit : ℕ)
    (now : ℚ) (net : Option ℕ) : FetchOutcome × MarketDataProxy :=
  fetch p ("ohlcv|" ++ symbol ++ "|" ++ timeframe ++ "|" ++ toString limit)
    (ohlcvTtl timeframe) now net

/-- MarketDataProxy.fetch_order_book: ttl 2 seconds. -/
def fetch_order_book (p : MarketDataProxy) (symbol : String) (limit : ℕ)
    (now : ℚ) (net : Option ℕ) : FetchOutcome × MarketDataProxy :=
  fetch p ("order_book|" ++ symbol ++ "|" ++ toString limit) 2 now net

/-! ## Decision pipeline (app/ai/advanced_modules.py, AdvancedAITradingEngine.analyze)

The sub-analyzers (regime filter, volume analyzer, pattern recognizer,
risk manager, multi-timeframe analyzer, performance tracker) are
abstracted by their outputs, collected in AnalyzeInputs; analyze itself
is embedded branch for branch.  NaN-or-None float normalisation (the
helper _f) is idealised away: module outputs are finite rationals. -/

/-- Output of MarketRegimeFilter.detect_regime as analyze consumes it. -/
structure RegimeResult where
  regime : String
  confidence : ℚ
  allow_mean_reversion : Bool
  adx : ℚ
  bb_width : ℚ
deriving DecidableEq, Repr

/-- Output of VolumeAnalyzer.analyze as analyze consumes it. -/
structure VolumeResult where
  score : ℚ
  interpretation : String
  should_trade : Bool
deriving DecidableEq, Repr

/-- Output of MicroPatternRecognizer.get_reversal_signal as analyze
consumes it; patterns_detected carries the pattern type strings. -/
structure ReversalResult where
  is_bullish_reversal : Bool
  is_bearish_reversal : Bool
  confidence : ℚ
  patterns_detected : List String
  order_book_imbalance : ℚ
deriving DecidableEq, Repr

/-- Output of DynamicRiskManager.get_dynamic_levels as analyze consumes
it. -/
structure RiskLevelsResult where
  stop_loss_price : ℚ
  take_profit_price : ℚ
  stop_loss_pct : ℚ
  take_profit_pct : ℚ
  risk_reward : ℚ
  atr : ℚ
  volatility : ℚ
deriving DecidableEq, Repr

/-- The inputs that determine one analyze call: the abstracted module
outputs, the last close, and whether the body raises.  risk_levels =
none models get_dynamic_levels raising (the first call is wrapped and
falls back to defaults; the second call on the main path re-raises into
the outer except-handler).  The performance-tracker statistics feeding
the position sizer are carried as the three numbers analyze reads. -/
structure AnalyzeInputs where
  regime_result : RegimeResult
  volume_result : VolumeResult
  reversal_result : ReversalResult
  mtf_alignment : Option String
  risk_levels : Option RiskLevelsResult
  current_price : ℚ
  perf_win_rate : ℚ
  perf_avg_win_pct : ℚ
  perf_avg_loss_pct : ℚ
  pipeline_error : Bool
deriving Repr

/-- The recommendation dict returned by analyze.  Every field is an
Option: some models the key being present in the returned dict, none
models the key being absent.  Module sub-objects are the normalised
objects analyze builds. -/
structure Recommendation where
  action : Option String
  confidence : Option ℚ
  reason : Option String
  current_price : Option ℚ
  stop_loss : Option ℚ
  take_profit : Option ℚ
  risk_reward : Option ℚ
  position_size_usd : Option ℚ
  position_pct : Option ℚ
  modules_regime : Option RegimeResult
  modules_volume : Option VolumeResult
  modules_risk_levels : Option RiskLevelsResult
  modules_reversal : Option ReversalResult
  modules_mtf : Option (Option String)
deriving Repr

/-- All the recommendation fields the specification lists apart from
size_usd are present: action, confidence, current_price, stop_loss,
take_profit, risk_reward and the regime, volume, risk-levels and
reversal module sub-objects. -/
def populated_except_size (r : Recommendation) : Prop :=
  r.action.isSome = true ∧ r.confidence.isSome = true ∧ r.current_price.isSome = true ∧
  r.stop_loss.isSome = true ∧ r.take_profit.isSome = true ∧ r.risk_reward.isSome = true ∧
  r.modules_regime.isSome = true ∧ r.modules_volume.isSome = true ∧
  r.modules_risk_levels.isSome = true ∧ r.modules_reversal.isSome = true

/-- The fallback risk levels analyze substitutes when the wrapped first
get_dynamic_levels call fails: SL 2 percent, TP 4 percent, R:R 2. -/
def fallbackRiskLevels (current_price : ℚ) : RiskLevelsResult :=
  { stop_loss_price := current_price * (1 - 2 / 100)
    take_profit_price := current_price * (1 + 4 / 100)
    stop_loss_pct := 2
    take_profit_pct := 4
    risk_reward := 2
    atr := current_price * (1 / 100)
    volatility := 1 / 50 }

/-- The all-false reversal object used by the SIDEWAYS and low-volume
early exits. -/
def reversalEmpty : ReversalResult :=
  { is_bullish_reversal := false
    is_bearish_reversal := false
    confidence := 0
    patterns_detected := []
    order_book_imbalance := 0 }

/-- The shape shared by the three early exits of analyze: note that the
position_size_usd and position_pct keys are NOT in these dicts. -/
def earlyExitRecommendation (action : String) (confidence : ℚ) (reason : String)
    (current_price : ℚ) (risk : RiskLevelsResult) (regime_obj : RegimeResult)
    (volume_obj : VolumeResult) (reversal_obj : ReversalResult)
    (mtf : Option String) : Recommendation :=
  { action := some action
    confidence := some confidence
    reason := some reason
    current_price := some current_price
    stop_loss := some risk.stop_loss_price
    take_profit := some risk.take_profit_price
    risk_reward := some risk.risk_reward
    position_size_usd := none
    position_pct := none
    modules_regime := some regime_obj
    modules_volume := some volume_obj
    modules_risk_levels := some risk
    modules_reversal := some reversal_obj
    modules_mtf := some mtf }

/-- The fallback recommendation of the outer except-handler of analyze:
a HALT with SL 2 percent, TP 4 percent, size 1 percent of balance, all
module sub-objects present. -/
def errorRecommendation (account_balance current_price : ℚ) : Recommendation :=
  { action := some "HALT"
    confidence := some 0
    reason := some "Error"
    current_price := some current_price
    stop_loss := some (current_price * (98 / 100))
    take_profit := some (current_price * (104 / 100))
    risk_reward := some 2
    position_size_usd := some (account_balance * (1 / 100))
    position_pct := some 1
    modules_regime := some
      { regime := "UNKNOWN", confidence := 0, allow_mean_reversion := false
        adx := 0, bb_width := 0 }
    modules_volume := some
      { score := 1 / 2, interpretation := "NEUTRAL", should_trade := false }
    modules_risk_levels := some
      { stop_loss_price := current_price * (98 / 100)
        take_profit_price := current_price * (104 / 100)
        stop_loss_pct := 2, take_profit_pct := 4, risk_reward := 2
        atr := current_price * (1 / 100), volatility := 1 / 50 }
    modules_reversal := some reversalEmpty
    modules_mtf := none }

/-- AdvancedAITradingEngine.analyze.  Branch structure of the source:
outer exception handler; SIDEWAYS-without-patterns HALT; volume score
below 0.35 HOLD; no-pattern HOLD unless the trend-following fallback
applies; otherwise the main path with the second get_dynamic_levels
call (whose failure raises into the outer handler), the confidence
calculation and Kelly position sizing. -/
def analyze (account_balance : ℚ) (confidence_override : Option ℚ)
    (inp : AnalyzeInputs) : Recommendation :=
  if inp.pipeline_error then errorRecommendation account_balance inp.current_price
  else
    let current_price := inp.current_price
    let regime := inp.regime_result.regime
    let volume_score := inp.volume_result.score
    let patterns := inp.reversal_result.patterns_detected
    let riskEarly :=
      match inp.risk_levels with
      | some r => r
      | none => fallbackRiskLevels current_price
    if regime = "SIDEWAYS" ∧ patterns = [] then
      earlyExitRecommendation "HALT" 0 ("Market in " ++ regime ++ " - Not tradeable")
        current_price riskEarly inp.regime_result inp.volume_result reversalEmpty
        inp.mtf_alignment
    else if volume_score < 7 / 20 then
      earlyExitRecommendation "HOLD" (1 / 2) "Volume analysis too negative"
        current_price riskEarly inp.regime_result inp.volume_result reversalEmpty
        inp.mtf_alignment
    else
      let mtf_confidence_boost : ℚ :=
        if inp.mtf_alignment = some "STRONG_BULLISH" then 3 / 20
        else if inp.mtf_alignment = some "STRONG_BEARISH" then 3 / 20
        else 0
      if patterns = [] ∧ ¬(regime = "TRENDING_UP" ∧ 1 / 2 ≤ volume_score) ∧
          ¬(regime = "TRENDING_DOWN" ∧ volume_score ≤ 1 / 2) then
        earlyExitRecommendation "HOLD" (2 / 5) "No clear patterns detected"
          current_price riskEarly inp.regime_result inp.volume_result
          inp.reversal_result inp.mtf_alignment
      else
        match inp.risk_levels with
        | none => errorRecommendation account_balance current_price
        | some risk =>
            let volume_adjustment := (volume_score - 1 / 2) * (2 / 5)
            let action :=
              if regime = "TRENDING_UP" then "BUY"
              else if regime = "TRENDING_DOWN" then "SELL"
              else "HOLD"
            let confidence0 :=
              if regime = "TRENDING_UP" then
                7 / 10 + volume_adjustment + mtf_confidence_boost
              else if regime = "TRENDING_DOWN" then
                7 / 10 + |volume_adjustment| + mtf_confidence_boost
              else 1 / 2
            let confidence1 := max 0 (min (19 / 20) confidence0)
            let confidence :=
              match confidence_override with
              | some c => c
              | none => confidence1
            let sizing := calculate_position_size { max_risk_per_trade := 1 / 50 }
              account_balance inp.perf_win_rate inp.perf_avg_win_pct
              inp.perf_avg_loss_pct risk.volatility confidence
            { action := some action
              confidence := some confidence
              reason := some "Trend decision"
              current_price := some current_price
              stop_loss := some risk.stop_loss_price
              take_profit := some risk.take_profit_price
              risk_reward := some risk.risk_reward
              position_size_usd := some sizing.position_size_usd
              position_pct := some sizing.position_pct
              modules_regime := some inp.regime_result
              modules_volume := some inp.volume_result
              modules_risk_levels := some risk
              modules_reversal := some inp.reversal_result
              modules_mtf := some inp.mtf_alignment }

/-! ## Concrete instances used by witnesses and counterexamples -/

/-- A fee-protection manager with the source defaults (taker fee 0.1
percent, profit multiple 3, caps 2/hour and 10/day, minimum hold 30
minutes), two recorded trades and a position opened at minute 0. -/
def feeManagerEx : FeeProtectionManager :=
  { maker_fee := 1 / 1000
    taker_fee := 1 / 1000
    min_profit_multiple := 3
    max_trades_per_hour := 2
    max_trades_per_day := 10
    min_hold_time_minutes := 30
    trade_history := [0, 10]
    position_entry_time := some 0 }

/-- A one-bar frame: high 100, low 99.9, close 100. -/
def stopLossFrame1 : List Bar :=
  [{ high := 100, low := 999 / 10, close := 100 }]

/-- A two-bar frame extending stopLossFrame1 with a deep low of 90,
which inflates the fallback ATR. -/
def stopLossFrame2 : List Bar :=
  [{ high := 100, low := 999 / 10, close := 100 },
   { high := 100, low := 90, close := 100 }]

/-- Pipeline inputs hitting the SIDEWAYS early exit: SIDEWAYS regime,
neutral volume, no detected patterns, no failure anywhere. -/
def analyzeInputsSideways : AnalyzeInputs :=
  { regime_result :=
      { regime := "SIDEWAYS", confidence := 7 / 10, allow_mean_reversion := true
        adx := 15, bb_width := 1 / 100 }
    volume_result := { score := 1 / 2, interpretation := "NEUTRAL", should_trade := true }
    reversal_result := reversalEmpty
    mtf_alignment := none
    risk_levels := some
      { stop_loss_price := 98, take_profit_price := 104, stop_loss_pct := 2
        take_profit_pct := 4, risk_reward := 2, atr := 1, volatility := 1 / 50 }
    current_price := 100
    perf_win_rate := 1 / 2
    perf_avg_win_pct := 3 / 100
    perf_avg_loss_pct := 1 / 50
    pipeline_error := false }

/-- A market BUY order for 0.1 units. -/
def buyOrderEx : OrderEvent :=
  { timestamp := 0, symbol := "BTCUSDT", order_type := "MARKET"
    direction := "BUY", quantity := 1 / 10 }

/-- A market SELL order for 0.1 units. -/
def sellOrderEx : OrderEvent :=
  { timestamp := 1, symbol := "BTCUSDT", order_type := "MARKET"
    direction := "SELL", quantity := 1 / 10 }

/-- The simulator state after a filled BUY from a fresh 10000-cash
simulator at price 100: holds one position in BTCUSDT. -/
def simWithPosEx : ExchangeSimulator :=
  (execute_order (mkExchangeSimulator 10000) buyOrderEx 100).2

/-- A proxy in cooldown until second 100 whose only ticker cache entry
expired at second 50. -/
def proxyCooldownEx : MarketDataProxy :=
  { cache := [("ticker|BTCUSDT", (50, 7))], cooldown_until := 100 }

/-- One logged trade at day 0 with positive PnL. -/
def tradeRecEx : TradeRec :=
  { timestamp := 0, pnl_usd := 5, pnl_pct := 2, hold_time_minutes := 30 }

/-! ## Helper lemmas -/

/-- lookupPos misses exactly when the symbol is not among the keys. -/
theorem lookupPos_eq_none_iff (l : List (String × Position)) (s : String) :
    lookupPos l s = none ↔ s ∉ l.map Prod.fst := by
  induction l with
  | nil => simp [lookupPos]
  | cons kv rest ih =>
      obtain ⟨k, v⟩ := kv
      by_cases hk : k = s
      · subst hk
        simp [lookupPos]
      · rw [List.map_cons]
        simp only [lookupPos, if_neg hk, List.mem_cons, not_or]
        rw [ih]
        constructor
        · intro hmem
          exact ⟨fun hs => hk hs.symm, hmem⟩
        · intro hmem
          exact hmem.2

/-- The keys of erasePos form a sublist of the original keys. -/
theorem erasePos_keys_sublist (l : List (String × Position)) (s : String) :
    ((erasePos l s).map Prod.fst).Sublist (l.map Prod.fst) := by
  induction l with
  | nil => simp [erasePos]
  | cons kv rest ih =>
      obtain ⟨k, v⟩ := kv
      by_cases hk : k = s
      · simp [erasePos, hk]
      · simpa [erasePos, hk] using ih.cons₂ k

/-- With nodup keys, erasing a symbol removes every binding for it. -/
theorem lookupPos_erasePos_self (l : List (String × Position)) (s : String)
    (h : (l.map Prod.fst).Nodup) : lookupPos (erasePos l s) s = none := by
  induction l with
  | nil => rfl
  | cons kv rest ih =>
      obtain ⟨k, v⟩ := kv
      rw [List.map_cons, List.nodup_cons] at h
      by_cases hk : k = s
      · subst hk
        simp only [erasePos, if_pos rfl]
        exact (lookupPos_eq_none_iff rest k).mpr h.1
      · simp only [erasePos, if_neg hk, lookupPos, if_neg hk]
        exact ih h.2

/-- execute_order keeps the position keys nodup. -/
theorem execute_order_nodup (sim : ExchangeSimulator) (order : OrderEvent)
    (current_price : ℚ) (h : (sim.positions.map Prod.fst).Nodup) :
    (((execute_order sim order current_price).2.positions).map Prod.fst).Nodup := by
  unfold execute_order
  by_cases hd : order.direction = "BUY"
  · simp only [if_pos hd]
    by_cases hp : (lookupPos sim.positions order.symbol).isSome
    · simpa [hp] using h
    · simp only [if_neg hp]
      by_cases hc : sim.cash < current_price * (1 + sim.slippage_rate) * order.quantity +
          current_price * (1 + sim.slippage_rate) * order.quantity * sim.fee_rate
      · simpa [hd, hc] using h
      · have hnone : lookupPos sim.positions order.symbol = none := by
          cases hl : lookupPos sim.positions order.symbol with
          | none => rfl
          | some _ => exact absurd (by simp [hl]) hp
        have hnotmem := (lookupPos_eq_none_iff _ _).mp hnone
        simp only [hd, if_pos rfl, if_neg hc]
        exact List.Nodup.cons hnotmem h
  · simp only [if_neg hd]
    cases hl : lookupPos sim.positions order.symbol with
    | none => simpa using h
    | some p =>
        simp only []
        exact (erasePos_keys_sublist sim.positions order.symbol).nodup h

/-- run_orders keeps the position keys nodup. -/
theorem run_orders_nodup (orders : List (OrderEvent × ℚ)) (sim : ExchangeSimulator)
    (h : (sim.positions.map Prod.fst).Nodup) :
    (((run_orders sim orders).positions).map Prod.fst).Nodup := by
  induction orders generalizing sim with
  | nil => exact h
  | cons op rest ih =>
      exact ih _ (execute_order_nodup sim op.1 op.2 h)

/-- A BUY against an existing position is a no-op returning no fill. -/
theorem execute_order_buy_existing (sim : ExchangeSimulator) (order : OrderEvent)
    (current_price : ℚ) (hd : order.direction = "BUY")
    (hp : (lookupPos sim.positions order.symbol).isSome) :
    execute_order sim order current_price = (none, sim) := by
  unfold execute_order
  simp [hd, hp]

/-- The total fee reported by calculate_net_profit is the one of
calculate_total_fees. -/
theorem calculate_net_profit_total_fee (m : FeeProtectionManager)
    (entry_price exit_price position_size_usd : ℚ) :
    (calculate_net_profit m entry_price exit_price position_size_usd).total_fee_usd =
      (calculate_total_fees m entry_price exit_price position_size_usd).total_fee_usd := rfl

/-! ## Claim theorems -/

/-- C1: with force_close the close is always allowed, bypassing the
hold-time and profit gates; without force_close, and with a recorded
position entry time, the close is allowed iff the hold time reaches
min_hold_time_minutes and the net profit of calculate_net_profit reaches
min_profit_multiple times the total fees of calculate_total_fees. -/
theorem can_close_position_gate (m : FeeProtectionManager)
    (now t entry_price current_price position_size_usd : ℚ)
    (h : m.position_entry_time = some t) :
    can_close_position m now entry_price current_price position_size_usd true = true ∧
    (can_close_position m now entry_price current_price position_size_usd false = true ↔
      (m.min_hold_time_minutes ≤ now - t ∧
        (calculate_total_fees m entry_price current_price position_size_usd).total_fee_usd *
            m.min_profit_multiple ≤
          (calculate_net_profit m entry_price current_price position_size_usd).net_profit_usd)) := by
  unfold can_close_position check_minimum_hold_time is_profit_above_fee_threshold
  rw [h]
  constructor
  · split_ifs <;> simp_all
  · split_ifs <;> simp_all [calculate_net_profit_total_fee]

/-- C1 witness: at minute 60 with entry at minute 0 (hold 60 >= 30) and
a 10 percent price gain on a 1000 USD position, the non-forced close is
allowed. -/
theorem can_close_position_gate_witness :
    can_close_position feeManagerEx 60 100 110 1000 false = true := by
  have h := can_close_position_gate feeManagerEx 60 0 100 110 1000 rfl
  exact h.2.mpr ⟨by norm_num [feeManagerEx], by norm_num [feeManagerEx,
    calculate_total_fees, calculate_net_profit]⟩

/-- C5: can_open_position denies exactly when the count of recorded
trades in the last hour has reached max_trades_per_hour or the count in
the last 24 hours has reached max_trades_per_day. -/
theorem can_open_position_frequency (m : FeeProtectionManager) (now : ℚ) :
    can_open_position m now = false ↔
      (m.max_trades_per_hour ≤ (m.trade_history.filter (fun ts => now - 60 ≤ ts)).length ∨
       m.max_trades_per_day ≤ (m.trade_history.filter (fun ts => now - 1440 ≤ ts)).length) := by
  simp only [can_open_position, check_trade_frequency_limits]
  split_ifs <;> simp_all

/-- C4 counterexample: with the default 2 percent risk cap, balance
10000, win rate 1, average win 6 percent, average loss 2 percent,
volatility 1 (vol multiplier floored at 0.3) and confidence 0 (conf
multiplier floored at 0.5), the code (halve then clamp: safe kelly 0.25)
sizes 200 USD while the claim's clamp-then-halve order (safe kelly
0.125) sizes 187.5 USD. -/
theorem calculate_position_size_order_counterexample :
    (calculate_position_size { max_risk_per_trade := 1 / 50 }
        10000 1 (6 / 100) (1 / 50) 1 0).position_size_usd = 200 ∧
    spec_position_size_usd { max_risk_per_trade := 1 / 50 }
        10000 1 (6 / 100) (1 / 50) 1 0 = 375 / 2 := by
  constructor <;> norm_num [calculate_position_size, spec_position_size_usd, minimum_position]

/-- C4 amended: for positive balance, positive average loss and nonzero
average win, calculate_position_size returns exactly the claimed formula
with the halve and clamp steps in the source's order (halve the raw
Kelly fraction, then clamp to the interval from 0 to 0.25). -/
theorem calculate_position_size_amended (sizer : PositionSizer)
    (account_balance win_rate avg_win_pct avg_loss_pct current_volatility confidence : ℚ)
    (hb : 0 < account_balance) (hl : 0 < avg_loss_pct) (hw : avg_win_pct ≠ 0) :
    (calculate_position_size sizer account_balance win_rate avg_win_pct avg_loss_pct
        current_volatility confidence).position_size_usd =
      amended_position_size_usd sizer account_balance win_rate avg_win_pct avg_loss_pct
        current_volatility confidence := by
  have hbne : ¬account_balance ≤ 0 := not_le.mpr hb
  have hbnz : avg_win_pct / avg_loss_pct ≠ 0 := div_ne_zero hw hl.ne'
  simp only [calculate_position_size, amended_position_size_usd, if_neg hbne,
    if_neg hl.ne', if_pos hl, if_neg hbnz]
  rw [min_comm]

/-- C4 amended witness: concrete evaluation at balance 10000, win rate
0.5, average win 3 percent, average loss 2 percent, volatility 2
percent, confidence 1. -/
theorem calculate_position_size_amended_witness :
    (calculate_position_size { max_risk_per_trade := 1 / 50 }
        10000 (1 / 2) (3 / 100) (1 / 50) (1 / 50) 1).position_size_usd =
      amended_position_size_usd { max_risk_per_trade := 1 / 50 }
        10000 (1 / 2) (3 / 100) (1 / 50) (1 / 50) 1 :=
  calculate_position_size_amended _ _ _ _ _ _ _ (by norm_num) (by norm_num) (by norm_num)

/-- C3 counterexample: for a BUY position entered at 100, the first
update (one tight bar) stores the stop 5599/56 (about 99.98, from the
ATR method with a tiny fallback ATR), and a second update on a frame
with a deep low of 90 (fallback ATR 5/7) stores the lower stop 499/5
(99.8, from the swing method): the sequence of active stops produced by
update_stop is NOT non-decreasing. -/
theorem update_stop_not_monotone :
    (update_stop (mkAdaptiveStopLoss 100 Side.BUY) stopLossFrame1 100).current_stop =
      some (5599 / 56) ∧
    (update_stop (update_stop (mkAdaptiveStopLoss 100 Side.BUY) stopLossFrame1 100)
        stopLossFrame2 100).current_stop = some (499 / 5) ∧
    (499 / 5 : ℚ) < 5599 / 56 := by
  refine ⟨?_, ?_, by norm_num⟩ <;>
    norm_num [update_stop, mkAdaptiveStopLoss, stopLossFrame1, stopLossFrame2,
      calculate_atr, find_swing_level, trueRanges, trueRangesAux, lastN, listMean,
      maxHighs, minLows, max_def, min_def, abs]

/-- C3 amended: for a BUY position, over any update on a nonempty frame,
the tracked extreme price never decreases and a stop is stored that
never falls below the fixed floor of 97 percent of the entry price; the
stop sequence itself need not be monotone because a growing ATR or a
falling swing low can lower the ATR and swing candidates. -/
theorem update_stop_floor (s : AdaptiveStopLoss) (bars : List Bar) (current_price : ℚ)
    (hs : s.side = Side.BUY) (hb : bars ≠ []) :
    s.extreme_price ≤ (update_stop s bars current_price).extreme_price ∧
    ∃ v, (update_stop s bars current_price).current_stop = some v ∧
      s.entry_price * (97 / 100) ≤ v := by
  have hempty : bars.isEmpty = false := by
    cases bars with
    | nil => exact absurd rfl hb
    | cons b rest => rfl
  unfold update_stop
  rw [hs, hempty]
  simp only [Bool.false_eq_true, if_false]
  exact ⟨le_max_left _ _, _, rfl, le_max_right _ _⟩

/-- C3 amended witness: concrete evaluation on the one-bar frame. -/
theorem update_stop_floor_witness :
    (mkAdaptiveStopLoss 100 Side.BUY).extreme_price ≤
      (update_stop (mkAdaptiveStopLoss 100 Side.BUY) stopLossFrame1 100).extreme_price ∧
    ∃ v, (update_stop (mkAdaptiveStopLoss 100 Side.BUY) stopLossFrame1 100).current_stop =
        some v ∧ (mkAdaptiveStopLoss 100 Side.BUY).entry_price * (97 / 100) ≤ v :=
  update_stop_floor (mkAdaptiveStopLoss 100 Side.BUY) stopLossFrame1 100 rfl (by decide)

/-- C2 counterexample: on the SIDEWAYS early exit the returned dict has
action HALT but NO position_size_usd key, so the pipeline does not
populate the claimed size_usd field on every path. -/
theorem analyze_sideways_missing_size :
    (analyze 10000 none analyzeInputsSideways).action = some "HALT" ∧
    (analyze 10000 none analyzeInputsSideways).position_size_usd = none := by
  constructor <;> rfl

/-- Every early-exit recommendation satisfies the presence predicate. -/
theorem populated_early (action : String) (confidence : ℚ) (reason : String)
    (current_price : ℚ) (risk : RiskLevelsResult) (regime_obj : RegimeResult)
    (volume_obj : VolumeResult) (reversal_obj : ReversalResult) (mtf : Option String) :
    populated_except_size (earlyExitRecommendation action confidence reason
      current_price risk regime_obj volume_obj reversal_obj mtf) := by
  simp [populated_except_size, earlyExitRecommendation]

/-- The exception-path recommendation satisfies the presence predicate. -/
theorem populated_error (account_balance current_price : ℚ) :
    populated_except_size (errorRecommendation account_balance current_price) := by
  simp [populated_except_size, errorRecommendation]

set_option maxHeartbeats 1000000 in
/-- C2 amended: on every path analyze returns action, confidence,
current_price, stop_loss, take_profit, risk_reward and the regime,
volume, risk-levels and reversal module sub-objects; position_size_usd
is populated on the exception path (and on the full path) but is absent
from the three early exits. -/
theorem analyze_populated (account_balance : ℚ) (confidence_override : Option ℚ)
    (inp : AnalyzeInputs) :
    populated_except_size (analyze account_balance confidence_override inp) ∧
    (inp.pipeline_error = true →
      (analyze account_balance confidence_override inp).position_size_usd.isSome = true) := by
  unfold analyze
  by_cases he : inp.pipeline_error = true
  · constructor
    · simpa [he] using populated_error account_balance inp.current_price
    · intro hc
      simp [he, errorRecommendation]
  · refine ⟨?_, fun hc => absurd hc he⟩
    rw [if_neg he]
    dsimp only
    split_ifs <;>
      first
      | exact populated_early _ _ _ _ _ _ _ _ _
      | (split
         · exact populated_error _ _
         · simp [populated_except_size])

/-- C2 amended witness: on the exception path all fields including
position_size_usd are populated. -/
theorem analyze_populated_witness :
    (analyze 10000 none { analyzeInputsSideways with pipeline_error := true
      }).position_size_usd.isSome = true :=
  (analyze_populated 10000 none
    { analyzeInputsSideways with pipeline_error := true }).2 rfl

/-- C6: execute_order fills BUY at current_price times (1 + slippage)
and SELL at current_price times (1 - slippage); commission is
fill_price times quantity times fee_rate; a BUY against an existing
position and a SELL without one are refused and leave the state
untouched; a filled BUY debits cash by value plus commission and
creates the position; a filled SELL credits cash by value minus
commission and removes the position (this last part uses the nodup-keys
invariant of the positions dict). -/
theorem execute_order_spec (sim : ExchangeSimulator) (order : OrderEvent)
    (current_price : ℚ) (hnd : (sim.positions.map Prod.fst).Nodup) :
    (∀ fill sim2, execute_order sim order current_price = (some fill, sim2) →
        fill.fill_price = (if order.direction = "BUY" then
            current_price * (1 + sim.slippage_rate)
          else current_price * (1 - sim.slippage_rate)) ∧
        fill.commission = fill.fill_price * order.quantity * sim.fee_rate) ∧
    (order.direction = "BUY" → (lookupPos sim.positions order.symbol).isSome →
        execute_order sim order current_price = (none, sim)) ∧
    (order.direction = "SELL" → lookupPos sim.positions order.symbol = none →
        execute_order sim order current_price = (none, sim)) ∧
    (order.direction = "BUY" → ∀ fill sim2,
        execute_order sim order current_price = (some fill, sim2) →
        sim2.cash = sim.cash - (fill.fill_price * order.quantity + fill.commission) ∧
        lookupPos sim2.positions order.symbol = some
          { symbol := order.symbol, quantity := order.quantity
            entry_price := fill.fill_price, entry_time := order.timestamp
            unrealized_pnl := 0 }) ∧
    (order.direction = "SELL" → ∀ fill sim2,
        execute_order sim order current_price = (some fill, sim2) →
        sim2.cash = sim.cash + (fill.fill_price * order.quantity - fill.commission) ∧
        lookupPos sim2.positions order.symbol = none) := by
  unfold execute_order
  by_cases hd : order.direction = "BUY"
  · simp only [if_pos hd]
    by_cases hp : (lookupPos sim.positions order.symbol).isSome
    · simp only [if_pos hp]
      exact ⟨fun fill sim2 hfs => by simp at hfs, fun _ _ => by trivial,
        fun hs => absurd hd (by simp [hs]), fun _ fill sim2 hfs => by simp at hfs,
        fun hs => absurd hd (by simp [hs])⟩
    · simp only [if_neg hp]
      by_cases hc : sim.cash < current_price * (1 + sim.slippage_rate) * order.quantity +
          current_price * (1 + sim.slippage_rate) * order.quantity * sim.fee_rate
      · simp only [if_pos hc]
        exact ⟨fun fill sim2 hfs => by simp at hfs, fun _ hps => absurd hps hp,
          fun hs => absurd hd (by simp [hs]), fun _ fill sim2 hfs => by simp at hfs,
          fun hs => absurd hd (by simp [hs])⟩
      · simp only [if_neg hc]
        refine ⟨fun fill sim2 hfs => ?_, fun _ hps => absurd hps hp,
          fun hs => absurd hd (by simp [hs]), fun _ fill sim2 hfs => ?_,
          fun hs => absurd hd (by simp [hs])⟩
        · have h1 := congrArg Prod.fst hfs
          have h2 := congrArg Prod.snd hfs
          simp only [] at h1 h2
          obtain rfl := Option.some.inj h1
          exact ⟨by rfl, by rfl⟩
        · have h1 := congrArg Prod.fst hfs
          have h2 := congrArg Prod.snd hfs
          simp only [] at h1 h2
          obtain rfl := Option.some.inj h1
          subst h2
          exact ⟨rfl, by simp [lookupPos]⟩
  · simp only [if_neg hd]
    cases hl : lookupPos sim.positions order.symbol with
    | none =>
        simp only [hl]
        exact ⟨fun fill sim2 hfs => by simp at hfs,
          fun hs => absurd hs hd, fun _ _ => by trivial,
          fun hs => absurd hs hd, fun _ fill sim2 hfs => by simp at hfs⟩
    | some p =>
        simp only [hl]
        refine ⟨fun fill sim2 hfs => ?_, fun hs => absurd hs hd,
          fun _ hn => by simp at hn,
          fun hs => absurd hs hd, fun _ fill sim2 hfs => ?_⟩
        · have h1 := congrArg Prod.fst hfs
          have h2 := congrArg Prod.snd hfs
          simp only [] at h1 h2
          obtain rfl := Option.some.inj h1
          exact ⟨by rfl, by rfl⟩
        · have h1 := congrArg Prod.fst hfs
          have h2 := congrArg Prod.snd hfs
          simp only [] at h1 h2
          obtain rfl := Option.some.inj h1
          subst h2
          exact ⟨rfl, lookupPos_erasePos_self sim.positions order.symbol hnd⟩

/-- C6 witness: a filled BUY from a fresh simulator at price 100 debits
the quoted cost and creates the position. -/
theorem execute_order_spec_witness :
    (execute_order (mkExchangeSimulator 10000) buyOrderEx 100).2.cash =
      10000 - ((execute_order (mkExchangeSimulator 10000) buyOrderEx 100).1.getD
          { timestamp := 0, symbol := "", direction := "", quantity := 0
            fill_price := 0, commission := 0, slippage := 0 }).fill_price * (1 / 10) -
        ((execute_order (mkExchangeSimulator 10000) buyOrderEx 100).1.getD
          { timestamp := 0, symbol := "", direction := "", quantity := 0
            fill_price := 0, commission := 0, slippage := 0 }).commission := by
  have h := execute_order_spec (mkExchangeSimulator 10000) buyOrderEx 100
    (by simp [mkExchangeSimulator])
  have h4 := h.2.2.2.1 rfl
  have hfs : execute_order (mkExchangeSimulator 10000) buyOrderEx 100 =
      ((execute_order (mkExchangeSimulator 10000) buyOrderEx 100).1,
       (execute_order (mkExchangeSimulator 10000) buyOrderEx 100).2) := rfl
  have hsome : (execute_order (mkExchangeSimulator 10000) buyOrderEx 100).1.isSome = true := by
    norm_num [execute_order, mkExchangeSimulator, buyOrderEx, lookupPos]
  obtain ⟨fill, hfill⟩ := Option.isSome_iff_exists.mp hsome
  have := h4 fill (execute_order (mkExchangeSimulator 10000) buyOrderEx 100).2
    (by rw [hfs, hfill])
  rw [hfill]
  simp only [Option.getD_some]
  rw [this.1]
  unfold mkExchangeSimulator buyOrderEx
  ring

/-- C7: starting from a fresh simulator, after any sequence of orders at
any prices the positions dict holds at most one entry per symbol, and a
BUY arriving while a position for its symbol exists leaves the positions
dict unchanged. -/
theorem single_position_invariant (initial_capital fee_rate slippage_rate : ℚ)
    (orders : List (OrderEvent × ℚ)) (s : String) :
    ((run_orders (mkExchangeSimulator initial_capital fee_rate slippage_rate)
        orders).positions.map Prod.fst).count s ≤ 1 ∧
    (∀ sim order current_price, order.direction = "BUY" →
      (lookupPos sim.positions order.symbol).isSome →
      (execute_order sim order current_price).2.positions = sim.positions) := by
  constructor
  · have hnd := run_orders_nodup orders
      (mkExchangeSimulator initial_capital fee_rate slippage_rate) (by simp [mkExchangeSimulator])
    exact List.nodup_iff_count_le_one.mp hnd s
  · intro sim order current_price hd hp
    rw [execute_order_buy_existing sim order current_price hd hp]

/-- C7 witness: a second BUY on a simulator already holding the position
changes nothing. -/
theorem single_position_invariant_witness :
    (execute_order simWithPosEx buyOrderEx 100).2.positions = simWithPosEx.positions :=
  (single_position_invariant 10000 (1 / 1000) (5 / 10000) [] "BTCUSDT").2
    simWithPosEx buyOrderEx 100 rfl
    (by norm_num [simWithPosEx, execute_order, mkExchangeSimulator, buyOrderEx, lookupPos])

/-- C10: a BUY whose total cost (fill value plus commission) exceeds the
available cash returns no fill and leaves cash, positions and the fill
history exactly as they were. -/
theorem execute_order_insufficient_cash (sim : ExchangeSimulator) (order : OrderEvent)
    (current_price : ℚ) (hd : order.direction = "BUY")
    (hp : lookupPos sim.positions order.symbol = none)
    (hc : sim.cash < current_price * (1 + sim.slippage_rate) * order.quantity +
      current_price * (1 + sim.slippage_rate) * order.quantity * sim.fee_rate) :
    execute_order sim order current_price = (none, sim) := by
  unfold execute_order
  simp only [if_pos hd]
  rw [if_neg (by simp [hp]), if_pos hc]

/-- C10 witness: a fresh simulator with 1 USD cannot afford 0.1 units at
price 100 and is left untouched. -/
theorem execute_order_insufficient_cash_witness :
    execute_order (mkExchangeSimulator 1) buyOrderEx 100 = (none, mkExchangeSimulator 1) :=
  execute_order_insufficient_cash (mkExchangeSimulator 1) buyOrderEx 100 rfl rfl
    (by norm_num [mkExchangeSimulator, buyOrderEx])

/-- C8 counterexample: during cooldown (until second 100) with a cached
ticker entry that is present but expired (expiry 50, call at 60), the
fetch raises the rate-limit error instead of returning the most recent
cached value 7. -/
theorem fetch_cooldown_drops_stale :
    lookupCache proxyCooldownEx.cache "ticker|BTCUSDT" = some (50, 7) ∧
    (60 : ℚ) < proxyCooldownEx.cooldown_until ∧
    (fetch_ticker proxyCooldownEx "BTCUSDT" 60 (some 9)).1 = FetchOutcome.rateLimited := by
  refine ⟨rfl, by norm_num [proxyCooldownEx], ?_⟩
  norm_num [fetch_ticker, fetch, get_cached, lookupCache, eraseCache, proxyCooldownEx,
    show ("ticker|" ++ "BTCUSDT" : String) = "ticker|BTCUSDT" from rfl]

/-- C8 amended: during cooldown a fetch never issues a network request;
it returns the cached value when an UNEXPIRED entry for the key exists
and otherwise fails with the rate-limit error, keeping the cooldown at
least 30 seconds past now; moreover a rate-limit signal from the
exchange (with no fresh cache entry) always leaves the cooldown
deadline at least 30 seconds in the future. -/
theorem fetch_cooldown_spec (p : MarketDataProxy) (key : String) (ttl now : ℚ)
    (net : Option ℕ) :
    (now < p.cooldown_until →
      (∀ v, (fetch p key ttl now net).1 ≠ FetchOutcome.fromNetwork v) ∧
      (∀ v, freshCached p key now = some v →
        (fetch p key ttl now net).1 = FetchOutcome.fromCache v) ∧
      (freshCached p key now = none →
        (fetch p key ttl now net).1 = FetchOutcome.rateLimited ∧
        now + 30 ≤ (fetch p key ttl now net).2.cooldown_until)) ∧
    (freshCached p key now = none → net = none →
      now + 30 ≤ (fetch p key ttl now net).2.cooldown_until) := by
  unfold fetch get_cached freshCached
  cases hl : lookupCache p.cache key with
  | none =>
      simp only [hl]
      by_cases hcd : now < p.cooldown_until
      · simp only [if_pos hcd]
        refine ⟨fun _ => ⟨?_, ?_, ?_⟩, ?_⟩ <;> simp [le_sup_right]
      · simp only [if_neg hcd]
        refine ⟨fun h => absurd h hcd, fun _ hnet => ?_⟩
        rw [hnet]
        simp [if_neg hcd, le_sup_right]
  | some ev =>
      obtain ⟨expires, v0⟩ := ev
      simp only [hl]
      by_cases hex : now < expires
      · simp only [if_pos hex]
        refine ⟨fun _ => ⟨?_, ?_, ?_⟩, ?_⟩ <;> simp
      · simp only [if_neg hex]
        by_cases hcd : now < p.cooldown_until
        · simp only [if_pos hcd]
          refine ⟨fun _ => ⟨?_, ?_, ?_⟩, ?_⟩ <;> simp [le_sup_right]
        · simp only [if_neg hcd]
          refine ⟨fun h => absurd h hcd, fun _ hnet => ?_⟩
          rw [hnet]
          simp [if_neg hcd, le_sup_right]

/-- C8 amended witness: the concrete cooldown state with the stale entry
fails with the rate-limit error and its cooldown stays at least 30
seconds past the call time. -/
theorem fetch_cooldown_spec_witness :
    (fetch proxyCooldownEx "ticker|BTCUSDT" 5 60 (some 9)).1 = FetchOutcome.rateLimited ∧
    (60 : ℚ) + 30 ≤ (fetch proxyCooldownEx "ticker|BTCUSDT" 5 60 (some 9)).2.cooldown_until := by
  have h := fetch_cooldown_spec proxyCooldownEx "ticker|BTCUSDT" 5 60 (some 9)
  exact (h.1 (by norm_num [proxyCooldownEx])).2.2
    (by norm_num [freshCached, lookupCache, proxyCooldownEx])

/-- C9 counterexample: get_statistics (reached from the pipeline's
position-sizing step on every backtest bar) reads the wall clock: the
same trade log yields different statistics at clock time 10 and clock
time 50, so the backtest output depends on a source of non-determinism
other than a seeded RNG (the engine has no seed at all). -/
theorem get_statistics_wall_clock_dependent :
    (get_statistics [tradeRecEx] 30 10).total_trades = 1 ∧
    (get_statistics [tradeRecEx] 30 50).total_trades = 0 ∧
    get_statistics [tradeRecEx] 30 10 ≠ get_statistics [tradeRecEx] 30 50 := by
  refine ⟨?_, ?_, ?_⟩
  · norm_num [get_statistics, tradeRecEx, listMean, empty_stats]
  · norm_num [get_statistics, tradeRecEx, listMean, empty_stats]
  · intro h
    have h1 : (get_statistics [tradeRecEx] 30 10).total_trades = 1 := by
      norm_num [get_statistics, tradeRecEx, listMean, empty_stats]
    have h2 : (get_statistics [tradeRecEx] 30 50).total_trades = 0 := by
      norm_num [get_statistics, tradeRecEx, listMean, empty_stats]
    rw [h, h2] at h1
    exact absurd h1 (by norm_num)

/-- C9 amended: the statistics are a deterministic function of the trade
log and the clock reading, and for the empty trade log (the state of the
performance tracker in a fresh backtesting engine) the wall-clock read
does not influence the result: every clock value yields _empty_stats, so
two backtests over the same data with fresh engines agree. -/
theorem get_statistics_empty_clock_independent (lookback_days now1 now2 : ℚ) :
    get_statistics [] lookback_days now1 = get_statistics [] lookback_days now2 ∧
    get_statistics [] lookback_days now1 = empty_stats := by
  constructor <;> rfl
